import Mathlib

/-!
Shallow embedding of the Books-Library GraphQL backend resolver layer
(src/resolvers.js, src/index.js and the in-memory iteration), together
with theorems about the query-filter and write-consistency logic.

The document store (Mongoose collections) is modelled as explicit lists;
`findOne` is `List.find?` (first match), `save` of a new document appends,
and document identifiers are drawn from a `nextId` counter on the store.
JavaScript truthiness on the optional string arguments of `allBooks`
(undefined and the empty string are falsy) is modelled by `truthy`.
A thrown `GraphQLError` and a JavaScript runtime `TypeError` (reading a
property of `null`) are the two failure modes, collected in `Failure`.
-/

/-- An Author document: `{ id, name, born }`; `born` is optional.
Modelled from the spec: the Mongoose schema file `models/author.js` is not
in the sources; the spec data model gives `{ id, name (unique, non-empty),
born (optional year) }`. -/
structure Author where
  id : Nat
  name : String
  born : Option Int
deriving DecidableEq

/-- A Book document: `{ id, title, author (Author id reference), published,
genres }`, as in the schema of src/index.js where `author` references an
Author by identifier. -/
structure Book where
  id : Nat
  title : String
  author : Nat
  published : Int
  genres : List String
deriving DecidableEq

/-- A User document. Modelled from the spec: the schema file
`models/user.js` is not in the sources; the spec data model gives
`{ id, username (unique), passwordHash-equivalent credential,
favoriteGenre }`. The resolver code in src/resolvers.js never reads the
credential field. -/
structure User where
  id : Nat
  username : String
  favoriteGenre : String
  credential : String
deriving DecidableEq

/-- The entity store plus the notification hub trace: `events` records the
Book ids published to the single fixed topic BOOK_ADDED, in order.
`nextId` supplies fresh document identifiers. -/
structure Store where
  authors : List Author
  books : List Book
  users : List User
  events : List Nat
  nextId : Nat
deriving DecidableEq

/-- Error codes carried in GraphQLError extensions; every resolver in the
source uses the single code BAD_USER_INPUT. -/
inductive ErrCode
  | badUserInput
deriving DecidableEq

/-- A failure surfaced to the caller: either a GraphQLError thrown by the
resolver, or a JavaScript TypeError from dereferencing `null`. -/
inductive Failure
  | graphQLError (message : String) (code : ErrCode)
  | typeError (message : String)
deriving DecidableEq

instance exceptDecEq {ε α : Type} [DecidableEq ε] [DecidableEq α] :
    DecidableEq (Except ε α) := fun x y =>
  match x, y with
  | .ok a, .ok b =>
      if h : a = b then .isTrue (by rw [h])
      else .isFalse (by intro hc; cases hc; exact h rfl)
  | .error a, .error b =>
      if h : a = b then .isTrue (by rw [h])
      else .isFalse (by intro hc; cases hc; exact h rfl)
  | .ok _, .error _ => .isFalse (by intro hc; cases hc)
  | .error _, .ok _ => .isFalse (by intro hc; cases hc)

/-- JavaScript truthiness of an optional string argument: `undefined`
(absent) and the empty string are falsy. -/
def truthy : Option String → Bool
  | none => false
  | some s => !(s == "")

/-- `Query.allBooks` from src/resolvers.js lines 14-27: looks up the
Author by the optional `author` argument, then branches on the truthiness
of the two arguments and on the "all genres" sentinel.  In the branches
where `args.author` is truthy and no such Author exists, the source reads
`author.id` on `null`, a TypeError. -/
def allBooks (store : Store) (authorArg genreArg : Option String) :
    Except Failure (List Book) :=
  let author? := store.authors.find? (fun au => some au.name == authorArg)
  if truthy authorArg && truthy genreArg && genreArg ≠ some "all genres" then
    match author? with
    | none => .error (.typeError "Cannot read properties of null")
    | some au =>
        .ok (store.books.filter
          (fun b => b.author == au.id && b.genres.contains (genreArg.getD "")))
  else if truthy authorArg then
    match author? with
    | none => .error (.typeError "Cannot read properties of null")
    | some au => .ok (store.books.filter (fun b => b.author == au.id))
  else if truthy genreArg && genreArg ≠ some "all genres" then
    .ok (store.books.filter (fun b => b.genres.contains (genreArg.getD "")))
  else if genreArg = some "all genres" then
    .ok store.books
  else
    .ok store.books

/-- The `Author.bookCount` field resolver from src/resolvers.js lines
34-40: re-looks-up the Author by name, then counts the Books whose author
reference equals that identifier. -/
def authorBookCount (store : Store) (root : Author) : Except Failure Nat :=
  match store.authors.find? (fun a => a.name == root.name) with
  | none => .error (.typeError "Cannot read properties of null")
  | some author =>
      .ok (store.books.filter (fun b => b.author == author.id)).length

/-- The token issued by `login`: jwt.sign over `{ username, id }`. -/
structure Token where
  username : String
  id : Nat
deriving DecidableEq

/-- `Mutation.login` from src/resolvers.js lines 70-87: find the User by
username; if absent or the password differs from the fixed literal
"secret", throw the single generic wrong-credentials error; otherwise
sign a token over `{ username, id }`. -/
def login (store : Store) (username password : String) :
    Except Failure Token :=
  match store.users.find? (fun u => u.username == username) with
  | none => .error (.graphQLError "wrong credentials" .badUserInput)
  | some user =>
      if password ≠ "secret" then
        .error (.graphQLError "wrong credentials" .badUserInput)
      else
        .ok { username := user.username, id := user.id }

/-- Arguments of `Mutation.addBook`. -/
structure AddBookArgs where
  title : String
  author : String
  published : Int
  genres : List String
deriving DecidableEq

/-- `Mutation.addBook` from src/resolvers.js lines 88-136, as a function
from the store (and the request context `currentUser`) to a result and the
successor store.  Steps, in source order: authentication guard; combined
validation (duplicate title, title length < 5, author-name length < 4);
find-or-create the Author by name; re-fetch the Author by name; persist
the Book referencing the Author id; publish BOOK_ADDED.  `hubOk` models
whether the fire-and-forget publish promise succeeds; the source discards
that promise, so it can only affect the event trace, never the response:
this is visible below in that the returned value does not consult
`hubOk`. -/
def addBook (store : Store) (currentUser : Option User) (args : AddBookArgs)
    (hubOk : Bool) : Except Failure Book × Store :=
  if currentUser.isNone then
    (.error (.graphQLError "not authenticated" .badUserInput), store)
  else
    let bookExist := store.books.find? (fun b => b.title == args.title)
    if bookExist.isSome || args.title.length < 5 || args.author.length < 4 then
      (.error (.graphQLError
        "Title must be unique and with length min 5 chars, author name min 4 chars"
        .badUserInput), store)
    else
      let currentAuthor := store.authors.find? (fun a => a.name == args.author)
      let newAuthor : Author :=
        { id := store.nextId, name := args.author, born := none }
      let store1 : Store :=
        match currentAuthor with
        | some _ => store
        | none =>
            { store with
              authors := store.authors ++ [newAuthor],
              nextId := store.nextId + 1 }
      match store1.authors.find? (fun a => a.name == args.author) with
      | none => (.error (.typeError "Cannot read properties of null"), store1)
      | some savedAuthor =>
          let book : Book :=
            { id := store1.nextId, title := args.title,
              author := savedAuthor.id, published := args.published,
              genres := args.genres }
          let store2 :=
            { store1 with books := store1.books ++ [book],
                          nextId := store1.nextId + 1 }
          let store3 :=
            if hubOk then { store2 with events := store2.events ++ [book.id] }
            else store2
          (.ok book, store3)

/-- `Mutation.editAuthor` from src/resolvers.js lines 137-154:
authentication guard; find the Author by name; if absent return null
without error; otherwise set `born` and save (the save updates the
document with the same identifier). -/
def editAuthor (store : Store) (currentUser : Option User) (name : String)
    (born : Int) : Except Failure (Option Author) × Store :=
  if currentUser.isNone then
    (.error (.graphQLError "not authenticated" .badUserInput), store)
  else
    match store.authors.find? (fun a => a.name == name) with
    | none => (.ok none, store)
    | some author =>
        let updated : Author := { author with born := some born }
        (.ok (some updated),
         { store with
           authors := store.authors.map
             (fun a => if a.id == author.id then updated else a) })

/-- `Mutation.addAuthor` from the in-memory iteration
(src/unnamed/part_000 lines 169-173): unconditionally appends a new Author
and returns it.  It never touches the notification hub. -/
def addAuthor (store : Store) (name : String) (born : Option Int) :
    Author × Store :=
  let author : Author := { id := store.nextId, name := name, born := born }
  (author,
   { store with authors := store.authors ++ [author],
                nextId := store.nextId + 1 })

/-- `Mutation.createUser` from src/resolvers.js lines 42-68: reject when
the username is taken, otherwise persist a new User.  The stored
credential is modelled as empty: the mutation takes no password argument
and the resolver never sets one. -/
def createUser (store : Store) (username favoriteGenre : String) :
    Except Failure User × Store :=
  match store.users.find? (fun u => u.username == username) with
  | some _ =>
      (.error (.graphQLError "The user already exist" .badUserInput), store)
  | none =>
      let user : User :=
        { id := store.nextId, username := username,
          favoriteGenre := favoriteGenre, credential := "" }
      (.ok user,
       { store with users := store.users ++ [user],
                    nextId := store.nextId + 1 })

/-- A concrete sample store used by witnesses and counterexamples,
seeded in the shape of the demo data of src/unnamed/part_000. -/
def sampleStore : Store :=
  { authors := [{ id := 0, name := "Robert Martin", born := some 1952 }],
    books := [{ id := 1, title := "Clean Code", author := 0,
                published := 2008, genres := ["refactoring"] }],
    users := [{ id := 2, username := "alice",
                favoriteGenre := "refactoring", credential := "hash1" }],
    events := [],
    nextId := 3 }

/-- The sample authenticated user for witnesses. -/
def sampleUser : User :=
  { id := 2, username := "alice", favoriteGenre := "refactoring",
    credential := "hash1" }

/-- A store with every credential replaced according to `f`: used to state
that `login` never consults the stored credential. -/
def setCreds (store : Store) (f : User → String) : Store :=
  { store with
    users := store.users.map (fun u => { u with credential := f u }) }

/-- Helper: with unique author names, `findOne({name})` returns exactly the
member with that name. -/
theorem find?_name_of_unique (authors : List Author) (A : Author)
    (hA : A ∈ authors)
    (huniq : ∀ a ∈ authors, a.name = A.name → a = A) :
    authors.find? (fun a => a.name == A.name) = some A := by
  induction authors with
  | nil => cases hA
  | cons hd tl ih =>
      by_cases h : hd.name = A.name
      · have : hd = A := huniq hd (List.mem_cons_self hd tl) h
        simp [List.find?_cons, h]
        exact this
      · have hb : (hd.name == A.name) = false := by
          exact beq_eq_false_iff_ne.mpr h
        rw [List.find?_cons, hb]
        have hmem : A ∈ tl := by
          rcases List.mem_cons.mp hA with rfl | hx
          · exact absurd rfl h
          · exact hx
        exact ih hmem (fun a ha hn => huniq a (List.mem_cons_of_mem hd ha) hn)

/-- C1: the source of `Query.allBooks` (src/resolvers.js lines 14-27) does
NOT return an empty list when the author filter names no existing Author:
it dereferences `author.id` on `null` and crashes with a TypeError, both
with and without a genre argument.  This theorem evaluates the code at the
failing input. -/
theorem allBooks_absent_author_crashes :
    sampleStore.authors.all (fun a => !(a.name == "Unknown Author")) = true ∧
    allBooks sampleStore (some "Unknown Author") none
      = .error (.typeError "Cannot read properties of null") ∧
    allBooks sampleStore (some "Unknown Author") (some "refactoring")
      = .error (.typeError "Cannot read properties of null") := by
  decide

/-- C3: an `addBook` call whose context has no resolved current user fails
with the not-authenticated GraphQLError before any store access, and the
store (all collections and the event trace) is returned unchanged. -/
theorem addBook_unauthenticated_no_store_access (store : Store)
    (args : AddBookArgs) (hubOk : Bool) :
    addBook store none args hubOk
      = (.error (.graphQLError "not authenticated" .badUserInput), store) :=
  rfl

/-- C4: an authenticated `addBook` with a duplicate title, a title shorter
than 5 characters, or an author name shorter than 4 characters fails with
the single combined validation GraphQLError (one error shape for all three
conditions) and leaves the store unchanged. -/
theorem addBook_validation_error (store : Store) (u : User)
    (args : AddBookArgs) (hubOk : Bool)
    (h : (store.books.find? (fun b => b.title == args.title)).isSome
        ∨ args.title.length < 5 ∨ args.author.length < 4) :
    addBook store (some u) args hubOk
      = (.error (.graphQLError
          "Title must be unique and with length min 5 chars, author name min 4 chars"
          .badUserInput), store) := by
  have hc : ((store.books.find? (fun b => b.title == args.title)).isSome
      || decide (args.title.length < 5)
      || decide (args.author.length < 4)) = true := by
    rcases h with h | h | h <;> simp [h]
  simp [addBook, hc]

/-- Witness for C4 at a concrete too-short title. -/
theorem addBook_validation_error_witness :
    addBook sampleStore (some sampleUser)
        { title := "abc", author := "Jane Doe", published := 2020,
          genres := [] } true
      = (.error (.graphQLError
          "Title must be unique and with length min 5 chars, author name min 4 chars"
          .badUserInput), sampleStore) :=
  addBook_validation_error sampleStore sampleUser
    { title := "abc", author := "Jane Doe", published := 2020, genres := [] }
    true (Or.inr (Or.inl (by decide)))

/-- C5: authenticated `editAuthor` on a name with no matching Author
returns null without error and leaves the store unchanged; on an existing
Author it returns the Author with `born` set to the supplied value, the
update is persisted (the updated Author is in the store), and the Book and
event collections are untouched. -/
theorem editAuthor_absent_null_present_updates (store : Store)
    (u : User) (name : String) (born : Int) :
    (store.authors.find? (fun a => a.name == name) = none →
      editAuthor store (some u) name born = (.ok none, store)) ∧
    (∀ A, store.authors.find? (fun a => a.name == name) = some A →
      ∃ A2 : Author,
        (editAuthor store (some u) name born).1 = .ok (some A2) ∧
        A2.name = A.name ∧ A2.born = some born ∧ A2.id = A.id ∧
        A2 ∈ (editAuthor store (some u) name born).2.authors ∧
        (editAuthor store (some u) name born).2.books = store.books ∧
        (editAuthor store (some u) name born).2.events = store.events) := by
  constructor
  · intro h
    simp [editAuthor, h]
  · intro A hA
    refine ⟨{ A with born := some born }, ?_, rfl, rfl, rfl, ?_, ?_, ?_⟩
    · simp [editAuthor, hA]
    · have hmem : A ∈ store.authors := List.mem_of_find?_eq_some hA
      simp only [editAuthor, Option.isNone_some, Bool.false_eq_true,
        if_false, hA]
      exact List.mem_map.mpr ⟨A, hmem, by simp⟩
    · simp [editAuthor, hA]
    · simp [editAuthor, hA]

/-- Witness for C5 on the absent-author branch at a concrete input. -/
theorem editAuthor_absent_null_present_updates_witness :
    editAuthor sampleStore (some sampleUser) "Nobody" 1900
      = (.ok none, sampleStore) :=
  (editAuthor_absent_null_present_updates sampleStore sampleUser
    "Nobody" 1900).1 (by decide)

/-- C8: `login` with an unknown username (any password) and `login` with a
known username but wrong password produce one and the same error value —
message, code, everything — so the failure reveals which check fired to
nobody. -/
theorem login_error_indistinguishable (store : Store)
    (u1 u2 p1 p2 : String)
    (h1 : store.users.find? (fun u => u.username == u1) = none)
    (h2 : (store.users.find? (fun u => u.username == u2)).isSome)
    (hp2 : p2 ≠ "secret") :
    login store u1 p1 = login store u2 p2 ∧
    login store u1 p1
      = .error (.graphQLError "wrong credentials" .badUserInput) := by
  obtain ⟨v, hv⟩ := Option.isSome_iff_exists.mp h2
  constructor
  · simp [login, h1, hv, hp2]
  · simp [login, h1]

/-- Witness for C8 at concrete credentials against the sample store. -/
theorem login_error_indistinguishable_witness :
    login sampleStore "mallory" "whatever"
        = login sampleStore "alice" "wrong" ∧
    login sampleStore "mallory" "whatever"
      = .error (.graphQLError "wrong credentials" .badUserInput) :=
  login_error_indistinguishable sampleStore "mallory" "alice"
    "whatever" "wrong" (by decide) (by decide) (by decide)

/-- Counterexample to C6 as stated: the empty string is a genre string
other than the sentinel, yet `allBooks(genre="")` does not return the
Books whose genre set contains "" — the source treats the falsy empty
string as no filter and returns every Book. -/
theorem allBooks_empty_genre_counterexample :
    ("" : String) ≠ "all genres" ∧
    allBooks sampleStore none (some "")
      ≠ .ok (sampleStore.books.filter (fun b => b.genres.contains "")) ∧
    allBooks sampleStore none (some "") = .ok sampleStore.books := by
  decide

/-- C6 amended: for every NON-EMPTY genre string other than the sentinel
(the empty string is falsy in the source and acts as no filter),
`allBooks(genre=g)` with no author filter returns exactly the Books whose
genre set contains g; and for every author argument, the sentinel
"all genres" gives exactly the result of omitting the genre argument. -/
theorem allBooks_genre_filter_amended (store : Store) (g : String)
    (hg1 : g ≠ "") (hg2 : g ≠ "all genres") :
    allBooks store none (some g)
      = .ok (store.books.filter (fun b => b.genres.contains g)) ∧
    (∀ authorArg : Option String,
      allBooks store authorArg (some "all genres")
        = allBooks store authorArg none) := by
  constructor
  · simp [allBooks, truthy, hg1, hg2]
  · intro authorArg
    cases hA : truthy authorArg <;>
      simp [allBooks, truthy, hA]

/-- Witness for C6 (amended) at a concrete genre against the sample
store. -/
theorem allBooks_genre_filter_amended_witness :
    allBooks sampleStore none (some "refactoring")
      = .ok (sampleStore.books.filter
          (fun b => b.genres.contains "refactoring")) :=
  (allBooks_genre_filter_amended sampleStore "refactoring"
    (by decide) (by decide)).1

/-- C7: for an Author in the store (author names being unique, per the
data model), the `Author.bookCount` field resolver returns the live count
of Books whose author reference equals that identifier, recomputed from
the current Book collection on each read; in particular it returns 0 for
an Author no Book references. -/
theorem authorBookCount_is_live_count (store : Store) (A : Author)
    (hA : A ∈ store.authors)
    (huniq : ∀ a ∈ store.authors, a.name = A.name → a = A) :
    authorBookCount store A
        = .ok (store.books.filter (fun b => b.author == A.id)).length ∧
    ((∀ b ∈ store.books, b.author ≠ A.id) →
      authorBookCount store A = .ok 0) := by
  have hfind := find?_name_of_unique store.authors A hA huniq
  constructor
  · simp [authorBookCount, hfind]
  · intro hnone
    have hfil : store.books.filter (fun b => b.author == A.id) = [] := by
      simp only [List.filter_eq_nil_iff]
      intro b hb
      simpa using hnone b hb
    simp [authorBookCount, hfind, hfil]

/-- Witness for C7 at the sample store's only Author. -/
theorem authorBookCount_is_live_count_witness :
    authorBookCount sampleStore
        { id := 0, name := "Robert Martin", born := some 1952 }
      = .ok (sampleStore.books.filter (fun b => b.author == 0)).length :=
  (authorBookCount_is_live_count sampleStore
    { id := 0, name := "Robert Martin", born := some 1952 }
    (by decide) (by decide)).1

/-- C2: an authenticated `addBook` that passes validation and names an
Author absent from the store appends exactly one new Author with that
name and `born` unset, and the returned Book's author reference resolves
(by identifier, in the resulting store) to that new Author; when an Author
with the name already exists, the Author collection is unchanged.  The
freshness hypothesis states that the store never hands out an identifier
already in use, as the document database guarantees. -/
theorem addBook_find_or_create_author (store : Store) (u : User)
    (args : AddBookArgs) (hubOk : Bool)
    (hTitle : store.books.find? (fun b => b.title == args.title) = none)
    (hTlen : 5 ≤ args.title.length) (hAlen : 4 ≤ args.author.length)
    (hFresh : ∀ a ∈ store.authors, a.id ≠ store.nextId) :
    (store.authors.find? (fun a => a.name == args.author) = none →
      ∃ newA : Author,
        (addBook store (some u) args hubOk).2.authors
            = store.authors ++ [newA] ∧
        newA.name = args.author ∧ newA.born = none ∧
        ∃ b : Book, (addBook store (some u) args hubOk).1 = .ok b ∧
          b.author = newA.id ∧
          ((addBook store (some u) args hubOk).2.authors.find?
              (fun a => a.id == b.author)) = some newA) ∧
    ((store.authors.find? (fun a => a.name == args.author)).isSome →
      (addBook store (some u) args hubOk).2.authors = store.authors) := by
  have hT5 : ¬ (args.title.length < 5) := by omega
  have hA4 : ¬ (args.author.length < 4) := by omega
  constructor
  · intro hAbs
    refine ⟨{ id := store.nextId, name := args.author, born := none },
      ?_, rfl, rfl,
      ⟨{ id := store.nextId + 1, title := args.title, author := store.nextId,
         published := args.published, genres := args.genres }, ?_, rfl, ?_⟩⟩
    · cases hubOk <;> simp [addBook, hTitle, hT5, hA4, hAbs]
    · cases hubOk <;> simp [addBook, hTitle, hT5, hA4, hAbs]
    · cases hubOk <;>
        · simp [addBook, hTitle, hT5, hA4, hAbs]
          exact Or.inr hFresh
  · intro hSome
    obtain ⟨A, hA⟩ := Option.isSome_iff_exists.mp hSome
    cases hubOk <;> simp [addBook, hTitle, hT5, hA4, hA]

/-- Witness for C2 on the existing-author branch at a concrete input. -/
theorem addBook_find_or_create_author_witness :
    (addBook sampleStore (some sampleUser)
        { title := "Clean Architecture", author := "Robert Martin",
          published := 2017, genres := ["design"] } true).2.authors
      = sampleStore.authors :=
  (addBook_find_or_create_author sampleStore sampleUser
    { title := "Clean Architecture", author := "Robert Martin",
      published := 2017, genres := ["design"] } true
    (by decide) (by decide) (by decide) (by decide)).2 (by decide)

/-- C9: the notification hub is signaled exactly on successful `addBook`,
with the id of the Book just persisted (the event lands after the Book is
in the store), and never on a failed `addBook` nor by `editAuthor`,
`addAuthor` or `createUser`; and the outcome of the fire-and-forget
publish (`hubOk`) never changes the mutation response or the persisted
Book and Author collections. -/
theorem addBook_publish_discipline (store : Store) (cu : Option User)
    (args : AddBookArgs) :
    (∀ b stf, addBook store cu args true = (.ok b, stf) →
        stf.events = store.events ++ [b.id] ∧ b ∈ stf.books) ∧
    (∀ e stf, addBook store cu args true = (.error e, stf) →
        stf.events = store.events) ∧
    (∀ hubOk, (addBook store cu args hubOk).1 = (addBook store cu args true).1
        ∧ (addBook store cu args hubOk).2.books
            = (addBook store cu args true).2.books
        ∧ (addBook store cu args hubOk).2.authors
            = (addBook store cu args true).2.authors) ∧
    (∀ ou name born, (editAuthor store ou name born).2.events = store.events) ∧
    (∀ name born, (addAuthor store name born).2.events = store.events) ∧
    (∀ un fg, (createUser store un fg).2.events = store.events) := by
  refine ⟨?_, ?_, ?_, ?_, ?_, ?_⟩
  · intro b stf h
    cases cu with
    | none => simp [addBook] at h
    | some u =>
      cases hg : ((store.books.find? (fun bk => bk.title == args.title)).isSome
          || decide (args.title.length < 5)
          || decide (args.author.length < 4)) with
      | true => simp [addBook, hg] at h
      | false =>
        cases hfa : store.authors.find? (fun a => a.name == args.author) with
        | none =>
          simp [addBook, hg, hfa] at h
          obtain ⟨hb, hst⟩ := h
          subst hb
          subst hst
          simp
        | some A =>
          simp [addBook, hg, hfa] at h
          obtain ⟨hb, hst⟩ := h
          subst hb
          subst hst
          simp
  · intro e stf h
    cases cu with
    | none =>
      simp [addBook] at h
      exact h.2 ▸ rfl
    | some u =>
      cases hg : ((store.books.find? (fun bk => bk.title == args.title)).isSome
          || decide (args.title.length < 5)
          || decide (args.author.length < 4)) with
      | true =>
        simp [addBook, hg] at h
        exact h.2 ▸ rfl
      | false =>
        cases hfa : store.authors.find? (fun a => a.name == args.author) with
        | none => simp [addBook, hg, hfa] at h
        | some A => simp [addBook, hg, hfa] at h
  · intro hubOk
    cases cu with
    | none => simp [addBook]
    | some u =>
      cases hg : ((store.books.find? (fun bk => bk.title == args.title)).isSome
          || decide (args.title.length < 5)
          || decide (args.author.length < 4)) with
      | true => simp [addBook, hg]
      | false =>
        cases hfa : store.authors.find? (fun a => a.name == args.author) with
        | none => cases hubOk <;> simp [addBook, hg, hfa]
        | some A => cases hubOk <;> simp [addBook, hg, hfa]
  · intro ou name born
    cases ou with
    | none => simp [editAuthor]
    | some v =>
      cases hfa : store.authors.find? (fun a => a.name == name) <;>
        simp [editAuthor, hfa]
  · intro name born
    simp [addAuthor]
  · intro un fg
    cases hfu : store.users.find? (fun x => x.username == un) <;>
      simp [createUser, hfu]

/-- Witness for C9: `editAuthor` at a concrete input signals nothing. -/
theorem addBook_publish_discipline_witness :
    (editAuthor sampleStore (some sampleUser) "Robert Martin" 1950).2.events
      = sampleStore.events :=
  (addBook_publish_discipline sampleStore (some sampleUser)
    { title := "Clean Architecture", author := "Robert Martin",
      published := 2017, genres := ["design"] }).2.2.2.1
    (some sampleUser) "Robert Martin" 1950

/-- C10: for a stored User, `login` with that username succeeds exactly
when the supplied password is the fixed literal "secret", and the stored
credential is never consulted: replacing every credential in the store (by
any function of the user) leaves the result of `login` unchanged, so one
and the same password authenticates every user. -/
theorem login_fixed_password_policy (store : Store) (u : User) (p : String)
    (hu : u ∈ store.users) :
    ((∃ t, login store u.username p = .ok t) ↔ p = "secret") ∧
    (∀ f : User → String,
      login (setCreds store f) u.username p = login store u.username p) := by
  have hsome : (store.users.find? (fun x => x.username == u.username)).isSome :=
    List.find?_isSome.mpr ⟨u, hu, by simp⟩
  obtain ⟨v, hv⟩ := Option.isSome_iff_exists.mp hsome
  constructor
  · constructor
    · rintro ⟨t, ht⟩
      by_contra hp
      simp [login, hv, hp] at ht
    · intro hp
      subst hp
      exact ⟨{ username := v.username, id := v.id }, by simp [login, hv]⟩
  · intro f
    have hmap : (store.users.map
          (fun x => ({ x with credential := f x } : User))).find?
        (fun x => x.username == u.username)
        = (store.users.find? (fun x => x.username == u.username)).map
            (fun x => ({ x with credential := f x } : User)) := by
      rw [List.find?_map]
      rfl
    simp [login, setCreds, hmap, hv]

/-- Witness for C10: scrubbing the credential of every user in the sample
store does not change a concrete login result. -/
theorem login_fixed_password_policy_witness :
    login (setCreds sampleStore (fun _ => "scrubbed"))
        sampleUser.username "secret"
      = login sampleStore sampleUser.username "secret" :=
  (login_fixed_password_policy sampleStore sampleUser "secret"
    (by decide)).2 (fun _ => "scrubbed")
